import Mathlib

/- Formal model of the MT4 bridge server in src/app.py: the JSON document
splitter (json.JSONDecoder().raw_decode), the ingestion handler mt4_webhook,
the history deque, the command outbox with its admin handlers (send_command,
delete_command, clear_commands), and a serialized trace semantics for the
lock-guarded shared state.  Each definition is annotated with the source
lines it embeds. -/

namespace App

/-! ### Python string helpers -/

/-- Whitespace characters recognised by Python `str.strip()` (ASCII subset;
the source is only ever fed ASCII/UTF-8 text bodies). -/
def pyIsSpace (c : Char) : Bool :=
  c = ' ' || c = '\t' || c = '\n' || c = '\r' || c = '\x0b' || c = '\x0c'

/-- Python `str.strip()`: drop leading and trailing whitespace. -/
def pyStrip (s : String) : String :=
  String.mk (((s.data.dropWhile pyIsSpace).reverse.dropWhile pyIsSpace).reverse)

/-- Python `str.upper()` (ASCII letters; the source only upper-cases form input). -/
def pyUpper (s : String) : String :=
  String.mk (s.data.map Char.toUpper)

/-- Python slicing `s[:200]`, used for the trailing-data preview (app.py line 131). -/
def pyTake200 (s : String) : String :=
  String.mk (s.data.take 200)

/-! ### JSON values, as produced by Python's `json` module -/

/-- A decoded JSON value.  Numbers are stored as sign, mantissa and decimal
scale (value = +-mantissa/10^scale); Python's int/float distinction is kept
only through `scale` and is not observable in the handler.  `nan`/`inf`
correspond to the NaN/Infinity constants Python's decoder accepts. -/
inductive Json where
  | null
  | bool (b : Bool)
  | num (neg : Bool) (m : Nat) (scale : Nat)
  | str (s : String)
  | nan
  | inf (neg : Bool)
  | arr (elems : List Json)
  | obj (members : List (String × Json))

/-- Python truthiness of a decoded JSON value, as used by
`parsed_json.get('account') if parsed_json else None` (app.py lines 155-159). -/
def pyTruthy : Json → Bool
  | .null => false
  | .bool b => b
  | .num _ m _ => m != 0
  | .str s => s != ""
  | .nan => true
  | .inf _ => true
  | .arr es => !es.isEmpty
  | .obj ms => !ms.isEmpty

/-- Lookup in a Python dict built from a JSON object: later duplicate keys
overwrite earlier ones, so the last matching member wins. -/
def dictGet (ms : List (String × Json)) (k : String) : Option Json :=
  (ms.reverse.find? (fun p => p.1 == k)).map Prod.snd

/-- Python type name of a JSON value, for the AttributeError message.
(For exponent-bearing numerals the int/float distinction is approximated.) -/
def pyTypeName : Json → String
  | .null => "NoneType"
  | .bool _ => "bool"
  | .num _ _ s => if s = 0 then "int" else "float"
  | .str _ => "str"
  | .nan => "float"
  | .inf _ => "float"
  | .arr _ => "list"
  | .obj _ => "dict"

/-- Message of the AttributeError raised by `v.get(...)` when `v` is not a dict. -/
def attrErrMsg (v : Json) : String :=
  "'" ++ pyTypeName v ++ "' object has no attribute 'get'"

/-! ### The JSON decoder (json.JSONDecoder().raw_decode)

Errors mirror Python's JSONDecodeError messages (positions omitted).  A
RecursionError on absurdly deep nesting is represented by `outOfFuel`; in the
source it lands in the generic `except Exception` branch (app.py line 138),
which also only records the failure. -/

inductive JsonErr where
  | expectingValue
  | expectingPropertyName
  | expectingColonDelimiter
  | expectingCommaDelimiter
  | unterminatedString
  | invalidControlCharacter
  | invalidEscape
  | invalidUnicodeEscape
  | outOfFuel
deriving DecidableEq

/-- The human-readable reason string (`str(e)` in app.py line 134). -/
def errStr : JsonErr → String
  | .expectingValue => "Expecting value"
  | .expectingPropertyName => "Expecting property name enclosed in double quotes"
  | .expectingColonDelimiter => "Expecting ':' delimiter"
  | .expectingCommaDelimiter => "Expecting ',' delimiter"
  | .unterminatedString => "Unterminated string starting at"
  | .invalidControlCharacter => "Invalid control character"
  | .invalidEscape => "Invalid \\escape"
  | .invalidUnicodeEscape => "Invalid \\uXXXX escape"
  | .outOfFuel => "maximum recursion depth exceeded"

/-- Models `traceback.format_exc()` (app.py lines 135, 140): the exact text is
abstracted, but it is non-empty and determined by the exception. -/
def tracebackOf (e : JsonErr) : String :=
  "Traceback (most recent call last): " ++ errStr e

/-- The double-quote character. -/
def qChar : Char := Char.ofNat 34

/-- The backslash character. -/
def bsChar : Char := Char.ofNat 92

/-- The opening curly bracket. -/
def lbChar : Char := Char.ofNat 123

/-- The closing curly bracket. -/
def rbChar : Char := Char.ofNat 125

/-- JSON whitespace skipped inside containers (json.decoder WHITESPACE). -/
def jsonWs (c : Char) : Bool :=
  c = ' ' || c = '\t' || c = '\n' || c = '\r'

/-- Skip JSON whitespace. -/
def skipWs (cs : List Char) : List Char := cs.dropWhile jsonWs

/-- Boolean list-prefix test. -/
def hasPrefix (p cs : List Char) : Bool := List.isPrefixOf p cs

/-- Hex digit value. -/
def hexVal (c : Char) : Option Nat :=
  if '0' ≤ c ∧ c ≤ '9' then some (c.toNat - 48)
  else if 'a' ≤ c ∧ c ≤ 'f' then some (c.toNat - 87)
  else if 'A' ≤ c ∧ c ≤ 'F' then some (c.toNat - 70)
  else none

/-- Read four hex digits of a \uXXXX escape. -/
def readHex4 : List Char → Option (Nat × List Char)
  | a :: b :: c :: d :: rest =>
    match hexVal a, hexVal b, hexVal c, hexVal d with
    | some x, some y, some z, some w => some (((x * 16 + y) * 16 + z) * 16 + w, rest)
    | _, _, _, _ => none
  | _ => none

/-- Decimal digit value. -/
def digitVal (c : Char) : Nat := c.toNat - 48

/-- Value of a digit string. -/
def digitsToNat (ds : List Char) : Nat := ds.foldl (fun a c => a * 10 + digitVal c) 0

/-- JSON string scanner (json.decoder.py_scanstring), called with the
opening quote already consumed; returns the string and the rest.  Surrogate
escape pairs are combined as in Python; a lone surrogate (which Lean's Char
cannot hold) is approximated by the null character. -/
def pStringRest (fuel : Nat) (acc : List Char) (cs : List Char) :
    Except JsonErr (String × List Char) :=
  match fuel with
  | 0 => .error .outOfFuel
  | fuel + 1 =>
    match cs with
    | [] => .error .unterminatedString
    | c :: rest =>
      if c = qChar then .ok (String.mk acc.reverse, rest)
      else if c = bsChar then
        match rest with
        | [] => .error .unterminatedString
        | e :: rest2 =>
          if e = qChar then pStringRest fuel (qChar :: acc) rest2
          else if e = bsChar then pStringRest fuel (bsChar :: acc) rest2
          else if e = '/' then pStringRest fuel ('/' :: acc) rest2
          else if e = 'b' then pStringRest fuel ('\x08' :: acc) rest2
          else if e = 'f' then pStringRest fuel ('\x0c' :: acc) rest2
          else if e = 'n' then pStringRest fuel ('\n' :: acc) rest2
          else if e = 'r' then pStringRest fuel ('\r' :: acc) rest2
          else if e = 't' then pStringRest fuel ('\t' :: acc) rest2
          else if e = 'u' then
            match readHex4 rest2 with
            | none => .error .invalidUnicodeEscape
            | some (n, rest3) =>
              if 0xd800 ≤ n ∧ n ≤ 0xdbff then
                match rest3 with
                | b1 :: u1 :: rest4 =>
                  if b1 = bsChar ∧ u1 = 'u' then
                    match readHex4 rest4 with
                    | some (n2, rest5) =>
                      if 0xdc00 ≤ n2 ∧ n2 ≤ 0xdfff then
                        pStringRest fuel
                          (Char.ofNat (0x10000 + (n - 0xd800) * 0x400 + (n2 - 0xdc00)) :: acc) rest5
                      else pStringRest fuel (Char.ofNat n :: acc) rest3
                    | none => pStringRest fuel (Char.ofNat n :: acc) rest3
                  else pStringRest fuel (Char.ofNat n :: acc) rest3
                | _ => pStringRest fuel (Char.ofNat n :: acc) rest3
              else pStringRest fuel (Char.ofNat n :: acc) rest3
          else .error .invalidEscape
      else if c.toNat < 32 then .error .invalidControlCharacter
      else pStringRest fuel (c :: acc) rest

/-- JSON number scanner (json.scanner NUMBER_RE plus conversion): optional
minus, an integer part `0 | [1-9][0-9]*`, optional fraction and exponent.
Returns `none` when the regex does not match at position 0, in which case the
scanner falls through to the NaN/Infinity constants or `Expecting value`. -/
def pNumber (cs : List Char) : Option (Json × List Char) :=
  let signSplit : Bool × List Char :=
    match cs with
    | '-' :: rest => (true, rest)
    | _ => (false, cs)
  let neg := signSplit.1
  match signSplit.2 with
  | [] => none
  | c :: rest =>
    if c.isDigit then
      let intDigits : List Char × List Char :=
        if c = '0' then ([c], rest)
        else
          let sp := rest.span Char.isDigit
          (c :: sp.1, sp.2)
      let fracSplit : List Char × List Char :=
        match intDigits.2 with
        | '.' :: r2 =>
          let sp := r2.span Char.isDigit
          if sp.1 = [] then ([], intDigits.2) else (sp.1, sp.2)
        | _ => ([], intDigits.2)
      let expSplit : Option (Bool × List Char × List Char) :=
        match fracSplit.2 with
        | c2 :: r3 =>
          if c2 = 'e' ∨ c2 = 'E' then
            let esign : Bool × List Char :=
              match r3 with
              | '+' :: rr => (false, rr)
              | '-' :: rr => (true, rr)
              | _ => (false, r3)
            let sp := esign.2.span Char.isDigit
            if sp.1 = [] then none else some (esign.1, sp.1, sp.2)
          else none
        | [] => none
      let m := digitsToNat (intDigits.1 ++ fracSplit.1)
      let scale := fracSplit.1.length
      match expSplit with
      | none => some (.num neg m scale, fracSplit.2)
      | some (esgn, eds, rest') =>
        let e := digitsToNat eds
        if esgn then some (.num neg m (scale + e), rest')
        else if scale ≤ e then some (.num neg (m * 10 ^ (e - scale)) 0, rest')
        else some (.num neg m (scale - e), rest')
    else none

mutual

/-- json.scanner.py_make_scanner's `_scan_once`: decode one JSON value at the
head of the input.  Fuel decreases on every nested construct; the top-level
caller supplies `length + 1`, which is never exhausted because each recursive
step first consumes at least one character. -/
def pValue (fuel : Nat) (cs : List Char) : Except JsonErr (Json × List Char) :=
  match fuel with
  | 0 => .error .outOfFuel
  | fuel + 1 =>
    match cs with
    | [] => .error .expectingValue
    | c :: rest =>
      if c = qChar then
        match pStringRest (rest.length + 1) [] rest with
        | .ok (s, r) => .ok (.str s, r)
        | .error e => .error e
      else if c = lbChar then pObjBody fuel (skipWs rest)
      else if c = '[' then pArrBody fuel (skipWs rest)
      else if hasPrefix ['n', 'u', 'l', 'l'] cs then .ok (.null, cs.drop 4)
      else if hasPrefix ['t', 'r', 'u', 'e'] cs then .ok (.bool true, cs.drop 4)
      else if hasPrefix ['f', 'a', 'l', 's', 'e'] cs then .ok (.bool false, cs.drop 5)
      else
        match pNumber cs with
        | some (v, r) => .ok (v, r)
        | none =>
          if hasPrefix ['N', 'a', 'N'] cs then .ok (.nan, cs.drop 3)
          else if hasPrefix ['I', 'n', 'f', 'i', 'n', 'i', 't', 'y'] cs then
            .ok (.inf false, cs.drop 8)
          else if hasPrefix ['-', 'I', 'n', 'f', 'i', 'n', 'i', 't', 'y'] cs then
            .ok (.inf true, cs.drop 9)
          else .error .expectingValue

/-- json.decoder.JSONObject after the opening brace, whitespace skipped. -/
def pObjBody (fuel : Nat) (cs : List Char) : Except JsonErr (Json × List Char) :=
  match fuel with
  | 0 => .error .outOfFuel
  | fuel + 1 =>
    match cs with
    | [] => .error .expectingPropertyName
    | c :: rest =>
      if c = rbChar then .ok (.obj [], rest)
      else if c = qChar then pObjLoop fuel [] (c :: rest)
      else .error .expectingPropertyName

/-- Member loop of JSONObject; `cs` starts at the opening quote of a key. -/
def pObjLoop (fuel : Nat) (acc : List (String × Json)) (cs : List Char) :
    Except JsonErr (Json × List Char) :=
  match fuel with
  | 0 => .error .outOfFuel
  | fuel + 1 =>
    match cs with
    | [] => .error .expectingPropertyName
    | c :: rest =>
      if c = qChar then
        match pStringRest (rest.length + 1) [] rest with
        | .error e => .error e
        | .ok (key, r1) =>
          match skipWs r1 with
          | ':' :: r3 =>
            match pValue fuel (skipWs r3) with
            | .error e => .error e
            | .ok (v, r4) =>
              match skipWs r4 with
              | c2 :: r6 =>
                if c2 = rbChar then .ok (.obj (acc ++ [(key, v)]), r6)
                else if c2 = ',' then pObjLoop fuel (acc ++ [(key, v)]) (skipWs r6)
                else .error .expectingCommaDelimiter
              | [] => .error .expectingCommaDelimiter
          | _ => .error .expectingColonDelimiter
      else .error .expectingPropertyName

/-- json.decoder.JSONArray after the opening bracket, whitespace skipped. -/
def pArrBody (fuel : Nat) (cs : List Char) : Except JsonErr (Json × List Char) :=
  match fuel with
  | 0 => .error .outOfFuel
  | fuel + 1 =>
    match cs with
    | [] => .error .expectingValue
    | c :: rest =>
      if c = ']' then .ok (.arr [], rest)
      else pArrLoop fuel [] (c :: rest)

/-- Element loop of JSONArray; `cs` starts at an element. -/
def pArrLoop (fuel : Nat) (acc : List Json) (cs : List Char) :
    Except JsonErr (Json × List Char) :=
  match fuel with
  | 0 => .error .outOfFuel
  | fuel + 1 =>
    match pValue fuel cs with
    | .error e => .error e
    | .ok (v, r1) =>
      match skipWs r1 with
      | ']' :: r3 => .ok (.arr (acc ++ [v]), r3)
      | ',' :: r3 => pArrLoop fuel (acc ++ [v]) (skipWs r3)
      | _ => .error .expectingCommaDelimiter

end

/-- `json.JSONDecoder().raw_decode(s)` (app.py lines 127-128): decode exactly
one JSON value at offset 0 and return it together with the unconsumed
remainder (`s[idx:]`). -/
def rawDecode (s : String) : Except JsonErr (Json × String) :=
  match pValue (s.data.length + 1) s.data with
  | .ok (v, rest) => .ok (v, String.mk rest)
  | .error e => .error e

/-! ### Python float parsing and printing (for the command outbox)

`float(str)` and `str(float)` are modelled on the decimal fragment actually
exercised by the operator form: sign, digits, optional fraction and exponent,
plus inf/infinity/nan (case-insensitive).  Digit-group underscores are not
modelled.  Printing assumes the stored decimal is the shortest representation
of the corresponding IEEE double and stays in positional notation, which is
exact for the short literals the admin surface deals in. -/

/-- A Python float: finite value (-1)^neg * m / 10^scale, infinity or NaN. -/
inductive PyFloat where
  | finite (neg : Bool) (m : Nat) (scale : Nat)
  | inf (neg : Bool)
  | nan
deriving DecidableEq

/-- Strip trailing zero fraction digits: float('0.10') = float('0.1'). -/
def normLoop : Nat → Nat → Nat × Nat
  | m, 0 => (m, 0)
  | m, s + 1 => if m % 10 = 0 then normLoop (m / 10) s else (m, s + 1)

/-- Build a normalized finite Python float. -/
def mkFinite (neg : Bool) (m scale : Nat) : PyFloat :=
  .finite neg (normLoop m scale).1 (normLoop m scale).2

/-- Scan an unsigned decimal literal `digits [. digits] [e [sign] digits]`,
requiring at least one digit; returns mantissa and scale. -/
def parseDecimal (cs : List Char) : Option (Nat × Nat) :=
  let sp1 := cs.span Char.isDigit
  let fracSplit : List Char × List Char :=
    match sp1.2 with
    | c :: rest => if c = '.' then rest.span Char.isDigit else ([], sp1.2)
    | [] => ([], sp1.2)
  if sp1.1 = [] ∧ fracSplit.1 = [] then none
  else
    let m := digitsToNat (sp1.1 ++ fracSplit.1)
    let scale := fracSplit.1.length
    match fracSplit.2 with
    | [] => some (m, scale)
    | c :: rest =>
      if c = 'e' ∨ c = 'E' then
        let esign : Bool × List Char :=
          match rest with
          | '+' :: rr => (false, rr)
          | '-' :: rr => (true, rr)
          | _ => (false, rest)
        let sp3 := esign.2.span Char.isDigit
        if sp3.1 = [] ∨ sp3.2 ≠ [] then none
        else
          let e := digitsToNat sp3.1
          if esign.1 then some (m, scale + e)
          else if scale ≤ e then some (m * 10 ^ (e - scale), 0)
          else some (m, scale - e)
      else none

/-- Python `float(s)` on an already-stripped string. -/
def pyFloat (s : String) : Option PyFloat :=
  match s.data with
  | [] => none
  | cs =>
    let signSplit : Bool × List Char :=
      match cs with
      | '+' :: r => (false, r)
      | '-' :: r => (true, r)
      | _ => (false, cs)
    let low := String.mk (signSplit.2.map Char.toLower)
    if low = "inf" ∨ low = "infinity" then some (.inf signSplit.1)
    else if low = "nan" then some .nan
    else
      match parseDecimal signSplit.2 with
      | some (m, scale) => some (mkFinite signSplit.1 m scale)
      | none => none

/-- Python `str(x)` for a float, as used by the f-strings in format_command. -/
def pyFloatStr : PyFloat → String
  | .nan => "nan"
  | .inf neg => if neg then "-inf" else "inf"
  | .finite neg m scale =>
    let sign := if neg then "-" else ""
    let ds := toString m
    if scale = 0 then sign ++ ds ++ ".0"
    else if scale < ds.length then
      sign ++ String.mk (ds.data.take (ds.length - scale)) ++ "." ++
        String.mk (ds.data.drop (ds.length - scale))
    else
      sign ++ "0." ++ String.mk (List.replicate (scale - ds.length) '0') ++ ds

/-! ### Data model: ingestion records, commands, server state -/

/-- One ingestion record (the dict built in app.py lines 143-160).  The
request headers are omitted (never consulted after storage); the client IP
and receive time are parameters of the handler.  `parsed` keeps JSON null
distinct from a failed parse, which Python folds into one `None` but
separates again via `parse_error`. -/
structure Record where
  received_at : String
  ip : String
  method : String
  path : String
  body_raw : String
  parsed : Option Json
  parse_error : Option JsonErr
  parse_error_detail : Option String
  remaining_data : Option String
  account : Option Json
  server : Option Json
  balance : Option Json
  equity : Option Json
  floating_pnl : Option Json

/-- One queued operator command (the dict built in app.py lines 197-205). -/
structure Cmd where
  id : Nat
  symbol : String
  direction : String
  volume : PyFloat
  sl : Option PyFloat
  tp : Option PyFloat
  timestamp : String

/-- The process-wide mutable state (app.py lines 12-18): the history deque
(head = leftmost = most recently appendleft-ed record), the command list and
the id counter. -/
structure ServerState where
  history : List Record
  commands : List Cmd
  cmd_counter : Nat

/-- The state at process start. -/
def initState : ServerState := { history := [], commands := [], cmd_counter := 0 }

/-- app.py line 12. -/
def MAX_HISTORY : Nat := 50

/-- An HTTP response as produced by the handlers: either an explicit body
with status and content type, or a redirect to another route. -/
inductive HttpResponse where
  | text (body : String) (status : Nat) (contentType : String)
  | redirect (location : String)
deriving DecidableEq

/-- The content type of every webhook response (app.py lines 174, 176). -/
def plainCT : String := "text/plain; charset=utf-8"

/-! ### format_command (app.py lines 21-31) -/

/-- Render one command as a wire-protocol line. -/
def format_command (cmd : Cmd) : String :=
  let base := cmd.direction ++ "," ++ cmd.symbol ++ "," ++ pyFloatStr cmd.volume
  match cmd.sl, cmd.tp with
  | some sl, some tp => base ++ "," ++ pyFloatStr sl ++ "," ++ pyFloatStr tp
  | some sl, none => base ++ "," ++ pyFloatStr sl ++ ",0"
  | none, some tp => base ++ ",0," ++ pyFloatStr tp
  | none, none => base

/-! ### The ingestion handler mt4_webhook (app.py lines 113-176) -/

/-- The document-splitting step (app.py lines 125-141): decode the first JSON
value of the stripped body; on success record any non-empty stripped
remainder truncated to 200 characters, on failure record the error.  Returns
(parsed_json, parse_error, remaining_data). -/
def splitDocument (cleaned : String) : Option Json × Option JsonErr × Option String :=
  match rawDecode cleaned with
  | .ok (v, rest) =>
    let remaining := pyStrip rest
    (some v, none, if remaining = "" then none else some (pyTake200 remaining))
  | .error e => (none, some e, none)

/-- The five headline-field extractions of app.py lines 155-159, each
`parsed_json.get(k) if parsed_json else None`.  All five share the same
truthiness test on the same value, so the first `.get` on a truthy non-dict
raises AttributeError, faithfully collapsed here into one step.  The raised
exception escapes the handler. -/
def headlineFields (p : Option Json) :
    Except String (Option Json × Option Json × Option Json × Option Json × Option Json) :=
  match p with
  | none => .ok (none, none, none, none, none)
  | some v =>
    if pyTruthy v then
      match v with
      | .obj ms =>
        .ok (dictGet ms "account", dictGet ms "server", dictGet ms "balance",
          dictGet ms "equity", dictGet ms "floating_pnl")
      | _ => .error (attrErrMsg v)
    else .ok (none, none, none, none, none)

/-- Build the ingestion record (app.py lines 115-160).  `ip` stands for
get_client_ip() and `now` for datetime.now().strftime(...), both request
inputs.  An AttributeError from the headline extraction is returned as
`.error` and escapes the handler before any state is touched. -/
def buildRecord (raw_body ip now : String) : Except String Record :=
  match splitDocument (pyStrip raw_body) with
  | (parsed_json, parse_error, remaining_data) =>
    match headlineFields parsed_json with
    | .error e => .error e
    | .ok (account, server, balance, equity, floating_pnl) =>
      .ok { received_at := now, ip := ip, method := "POST", path := "/web/api/echo",
            body_raw := raw_body, parsed := parsed_json, parse_error := parse_error,
            parse_error_detail := parse_error.map tracebackOf,
            remaining_data := remaining_data, account := account, server := server,
            balance := balance, equity := equity, floating_pnl := floating_pnl }

/-- The state-and-response tail of the handler (app.py lines 162-176):
appendleft the record into the bounded deque, drain the command list under
the lock, and answer with the joined command lines or NOCOMMAND. -/
def webhookRespond (record : Record) (st : ServerState) : ServerState × HttpResponse :=
  let st2 : ServerState :=
    { st with history := (record :: st.history).take MAX_HISTORY, commands := [] }
  if st.commands.isEmpty then (st2, .text "NOCOMMAND" 200 plainCT)
  else (st2, .text (String.intercalate "\n" (st.commands.map format_command)) 200 plainCT)

/-- The POST /web/api/echo handler (app.py lines 113-176).  `.error msg`
models an exception escaping the handler (the framework then answers 500 and
no server state has been modified). -/
def mt4_webhook (raw_body ip now : String) (st : ServerState) :
    Except String (ServerState × HttpResponse) :=
  match buildRecord raw_body ip now with
  | .error e => .error e
  | .ok record => .ok (webhookRespond record st)

/-! ### The dashboard snapshot (app.py lines 96-111) -/

/-- `hist_list = list(reversed(history))` (app.py line 99), the point-in-time
snapshot handed to the template. -/
def index_history_snapshot (st : ServerState) : List Record :=
  st.history.reverse

/-- `latest_record = hist_list[0] if hist_list else None` (app.py line 100). -/
def index_latest_record (st : ServerState) : Option Record :=
  (index_history_snapshot st).head?

/-! ### The admin handlers (app.py lines 178-223) -/

/-- The five form fields as retrieved by `request.form.get(k, '')`. -/
structure FormData where
  symbol : String
  direction : String
  volume : String
  sl : String
  tp : String
deriving DecidableEq

/-- `request.form.get('symbol', '').strip().upper()` (app.py line 181). -/
def form_symbol (f : FormData) : String := pyUpper (pyStrip f.symbol)

/-- app.py line 182. -/
def form_direction (f : FormData) : String := pyUpper (pyStrip f.direction)

/-- app.py line 183. -/
def form_volume (f : FormData) : String := pyStrip f.volume

/-- app.py line 184. -/
def form_sl (f : FormData) : String := pyStrip f.sl

/-- app.py line 185. -/
def form_tp (f : FormData) : String := pyStrip f.tp

/-- `float(x) if x else None` under the try of app.py lines 190-195:
`none` is the ValueError case, `some none` the absent field. -/
def pySlTp (s : String) : Option (Option PyFloat) :=
  if s = "" then some none else (pyFloat s).map some

/-- The POST /send_command handler (app.py lines 178-210).  Validation
failure redirects without touching the state; success appends the command
and increments the id counter. -/
def send_command (f : FormData) (now : String) (st : ServerState) :
    ServerState × HttpResponse :=
  if form_symbol f = "" ∨ (form_direction f ≠ "BUY" ∧ form_direction f ≠ "SELL") ∨
      form_volume f = "" then
    (st, .redirect "/")
  else
    match pyFloat (form_volume f), pySlTp (form_sl f), pySlTp (form_tp f) with
    | some v, some slv, some tpv =>
      ({ st with
          commands := st.commands ++
            [{ id := st.cmd_counter, symbol := form_symbol f,
               direction := form_direction f, volume := v, sl := slv, tp := tpv,
               timestamp := now }],
          cmd_counter := st.cmd_counter + 1 },
        .redirect "/")
    | _, _, _ => (st, .redirect "/")

/-- The acceptance condition of send_command: exactly the inputs that reach
the enqueue at app.py lines 197-208. -/
def sendValid (f : FormData) : Prop :=
  ¬(form_symbol f = "" ∨ (form_direction f ≠ "BUY" ∧ form_direction f ≠ "SELL") ∨
      form_volume f = "") ∧
  (pyFloat (form_volume f)).isSome = true ∧
  (pySlTp (form_sl f)).isSome = true ∧ (pySlTp (form_tp f)).isSome = true

instance (f : FormData) : Decidable (sendValid f) := by
  unfold sendValid; infer_instance

/-- The POST /delete_command/<int:index> handler (app.py lines 212-217):
pop the command at `index` when it is within the current bounds, otherwise
do nothing; redirect either way. -/
def delete_command (i : Int) (st : ServerState) : ServerState × HttpResponse :=
  if 0 ≤ i ∧ i < (st.commands.length : Int) then
    ({ st with commands := st.commands.eraseIdx i.toNat }, .redirect "/")
  else (st, .redirect "/")

/-- The POST /clear_commands handler (app.py lines 219-223). -/
def clear_commands (st : ServerState) : ServerState × HttpResponse :=
  ({ st with commands := [] }, .redirect "/")

/-! ### Serialized trace semantics

Every mutation of the shared stores happens inside `history_lock` or
`commands_lock`, and the development server handles requests one at a time,
so a concurrent execution is an arbitrary interleaving of the four handler
bodies run atomically.  A trace is a list of such operations; the ghost
fields log what each drain returned and which commands were removed, to
state the delivery-accounting properties. -/

/-- One atomic handler invocation. -/
inductive Op where
  | webhook (body ip now : String)
  | admin (f : FormData) (now : String)
  | deleteCmd (i : Int)
  | clearCmds

/-- A trace state: the server state plus the observation log.  `drains` has
one entry per completed webhook exchange (its drained commands), `deleted`
the commands removed by delete_command, `cleared` those removed by
clear_commands, `assigned` the ids handed out by send_command in order. -/
structure Trace where
  st : ServerState
  drains : List (List Cmd)
  deleted : List Cmd
  cleared : List Cmd
  assigned : List Nat

/-- The empty trace. -/
def initTrace : Trace :=
  { st := initState, drains := [], deleted := [], cleared := [], assigned := [] }

/-- Run one operation.  A webhook whose record construction raises leaves the
state untouched (the exception fires before any mutation). -/
def traceStep (t : Trace) (op : Op) : Trace :=
  match op with
  | .webhook body ip now =>
    match mt4_webhook body ip now t.st with
    | .ok (st', _) =>
      { t with st := st', drains := t.drains ++ [t.st.commands] }
    | .error _ => t
  | .admin f now =>
    { t with st := (send_command f now t.st).1,
             assigned := t.assigned ++
               (((send_command f now t.st).1.commands.drop t.st.commands.length).map Cmd.id) }
  | .deleteCmd i =>
    if 0 ≤ i ∧ i < (t.st.commands.length : Int) then
      { t with st := (delete_command i t.st).1,
               deleted := t.deleted ++ (t.st.commands.drop i.toNat).take 1 }
    else { t with st := (delete_command i t.st).1 }
  | .clearCmds =>
    { t with st := (clear_commands t.st).1, cleared := t.cleared ++ t.st.commands }

/-- Run a whole trace from process start. -/
def runTrace (ops : List Op) : Trace := ops.foldl traceStep initTrace

/-- All command ids accounted for by a trace: drained, deleted, cleared or
still queued. -/
def traceIds (t : Trace) : List Nat :=
  (t.drains.flatten ++ t.deleted ++ t.cleared ++ t.st.commands).map Cmd.id

/-- The delivery-accounting invariant: the ids ever issued are exactly
0..cmd_counter-1, partitioned among the drains, the deletions, the clears and
the live queue; and the assignment log is exactly 0..cmd_counter-1 in order. -/
def traceInv (t : Trace) : Prop :=
  (traceIds t).Perm (List.range t.st.cmd_counter) ∧
  t.assigned = List.range t.st.cmd_counter

/-- Extract the response of a webhook call, `none` if an exception escaped. -/
def webhookRespOf (r : Except String (ServerState × HttpResponse)) : Option HttpResponse :=
  match r with
  | .ok (_, resp) => some resp
  | .error _ => none

/-- The post-state of one atomic operation (used to phrase concrete runs). -/
def stepState (st : ServerState) (op : Op) : ServerState :=
  (traceStep { initTrace with st := st } op).st

/-- A one-command state used by the delete-bounds scenarios. -/
def cmdOne : Cmd :=
  { id := 0, symbol := "EURUSD", direction := "BUY", volume := .finite false 1 1,
    sl := none, tp := none, timestamp := "00:00:00" }

/-- A server state holding exactly `cmdOne`. -/
def stOne : ServerState := { history := [], commands := [cmdOne], cmd_counter := 1 }

/-- The HOLD-direction form of the validation-gate scenario. -/
def formHold : FormData := { symbol := "EURUSD", direction := "HOLD", volume := "1", sl := "", tp := "" }

/-- The empty-symbol form of the validation-gate scenario. -/
def formEmptySym : FormData := { symbol := "", direction := "BUY", volume := "1", sl := "", tp := "" }

/-- A well-formed enqueue form. -/
def formGood : FormData := { symbol := "EURUSD", direction := "BUY", volume := "1", sl := "", tp := "" }

/-- The negative-volume form refuting the positivity part of the validation claim. -/
def formNegVol : FormData := { symbol := "EURUSD", direction := "BUY", volume := "-1", sl := "", tp := "" }

/-- The lower-case form of the protocol-formatting scenario. -/
def formLower : FormData := { symbol := "eurusd", direction := "buy", volume := "0.10", sl := "1.1000", tp := "" }

/-- The state after two successful report ingestions, used to inspect the
dashboard snapshot order. -/
def c2State : ServerState :=
  stepState (stepState initState (Op.webhook "\x7b\"seq\": 1\x7d" "10.0.0.1" "t1"))
    (Op.webhook "\x7b\"seq\": 2\x7d" "10.0.0.1" "t2")

/-- The ingestion record produced for a body whose JSON decoding fails with
`e`: the raw body is retained, the outcome is Failed, all headline fields are
null. -/
def failRecord (raw_body ip now : String) (e : JsonErr) : Record :=
  { received_at := now, ip := ip, method := "POST", path := "/web/api/echo",
    body_raw := raw_body, parsed := none, parse_error := some e,
    parse_error_detail := some (tracebackOf e), remaining_data := none,
    account := none, server := none, balance := none, equity := none,
    floating_pnl := none }

/-- The server state after ingesting a body whose JSON decoding fails with
`e`: the failed record is prepended to the bounded history, the outbox is
drained. -/
def failState (body ip now : String) (e : JsonErr) (st : ServerState) : ServerState :=
  { st with
    history := (failRecord body ip now e :: st.history).take MAX_HISTORY,
    commands := [] }

/-! ## Helper lemmas -/

theorem errStr_ne_empty (e : JsonErr) : errStr e ≠ "" := by
  cases e <;> decide

theorem webhookRespond_fst (record : Record) (st : ServerState) :
    (webhookRespond record st).1 =
      { st with history := (record :: st.history).take MAX_HISTORY, commands := [] } := by
  unfold webhookRespond
  by_cases h : st.commands.isEmpty <;> simp [h]

theorem mt4_webhook_ok_state {body ip now : String} {st st' : ServerState}
    {r : HttpResponse} (h : mt4_webhook body ip now st = .ok (st', r)) :
    st'.commands = [] ∧ st'.cmd_counter = st.cmd_counter := by
  unfold mt4_webhook at h
  cases hb : buildRecord body ip now with
  | error e => rw [hb] at h; exact absurd h (by simp)
  | ok record =>
    rw [hb] at h
    have h2 : webhookRespond record st = (st', r) := by
      injection h
    have h3 : st' = (webhookRespond record st).1 := by rw [h2]
    rw [h3, webhookRespond_fst]
    exact ⟨rfl, rfl⟩

theorem send_command_rejected (f : FormData) (now : String) (st : ServerState)
    (h : ¬ sendValid f) : send_command f now st = (st, .redirect "/") := by
  unfold send_command
  by_cases h1 : form_symbol f = "" ∨ (form_direction f ≠ "BUY" ∧ form_direction f ≠ "SELL") ∨
      form_volume f = ""
  · rw [if_pos h1]
  · rw [if_neg h1]
    cases hv : pyFloat (form_volume f) with
    | none => simp [hv]
    | some v =>
      cases hs : pySlTp (form_sl f) with
      | none => simp [hv, hs]
      | some slv =>
        cases ht : pySlTp (form_tp f) with
        | none => simp [hv, hs, ht]
        | some tpv =>
          exact absurd ⟨h1, by simp [hv], by simp [hs], by simp [ht]⟩ h

theorem send_command_cases (f : FormData) (now : String) (st : ServerState) :
    (send_command f now st).1 = st ∨
    ∃ c : Cmd, c.id = st.cmd_counter ∧
      (send_command f now st).1 =
        { st with commands := st.commands ++ [c], cmd_counter := st.cmd_counter + 1 } := by
  unfold send_command
  split
  · exact Or.inl rfl
  · split
    · exact Or.inr ⟨_, rfl, rfl⟩
    · exact Or.inl rfl

theorem delete_command_in (i : Int) (st : ServerState)
    (h : 0 ≤ i ∧ i < (st.commands.length : Int)) :
    delete_command i st =
      ({ st with commands := st.commands.eraseIdx i.toNat }, .redirect "/") := by
  unfold delete_command; rw [if_pos h]

theorem delete_command_out (i : Int) (st : ServerState)
    (h : ¬(0 ≤ i ∧ i < (st.commands.length : Int))) :
    delete_command i st = (st, .redirect "/") := by
  unfold delete_command; rw [if_neg h]

theorem perm_take_one_eraseIdx {α : Type} (l : List α) (n : Nat) (h : n < l.length) :
    l.Perm ((l.drop n).take 1 ++ l.eraseIdx n) := by
  have hd : l.drop n = l.get ⟨n, h⟩ :: l.drop (n + 1) := List.drop_eq_getElem_cons h
  rw [List.eraseIdx_eq_take_drop_succ, hd]
  simp only [List.take_succ_cons, List.take_zero]
  conv_lhs => rw [← List.take_append_drop n l, hd]
  exact List.perm_middle.trans (by simp [List.perm_middle])

theorem traceInv_step (t : Trace) (op : Op) (h : traceInv t) : traceInv (traceStep t op) := by
  obtain ⟨hperm, hassigned⟩ := h
  cases op with
  | webhook body ip now =>
    simp only [traceStep]
    cases hw : mt4_webhook body ip now t.st with
    | error e => exact ⟨hperm, hassigned⟩
    | ok pr =>
      obtain ⟨st', r⟩ := pr
      obtain ⟨hc, hn⟩ := mt4_webhook_ok_state hw
      constructor
      · unfold traceIds at hperm ⊢
        simp only [List.flatten_append, List.flatten_cons, List.flatten_nil,
          List.append_nil, hc, hn]
        refine List.Perm.trans (List.Perm.map Cmd.id ?_) hperm
        rw [← Multiset.coe_eq_coe]
        simp only [← Multiset.coe_add]
        abel
      · simpa [hn] using hassigned
  | admin f now =>
    simp only [traceStep]
    rcases send_command_cases f now t.st with hsame | ⟨c, hcid, hst⟩
    · constructor
      · unfold traceIds at hperm ⊢
        simp only [hsame]
        exact hperm
      · simp only [hsame, List.drop_length, List.map_nil, List.append_nil]
        exact hassigned
    · constructor
      · unfold traceIds at hperm ⊢
        simp only [hst, List.drop_left]
        have hbase :
            (t.drains.flatten ++ t.deleted ++ t.cleared ++ (t.st.commands ++ [c])).Perm
              ((t.drains.flatten ++ t.deleted ++ t.cleared ++ t.st.commands) ++ [c]) := by
          rw [← Multiset.coe_eq_coe]
          simp only [← Multiset.coe_add]
          abel
        refine List.Perm.trans (List.Perm.map Cmd.id hbase) ?_
        rw [List.map_append]
        rw [List.range_succ]
        simp only [List.map_cons, List.map_nil, hcid]
        exact List.Perm.append_right _ hperm
      · simp only [hst, List.drop_left, List.map_cons, List.map_nil, hcid]
        rw [hassigned, List.range_succ]
  | deleteCmd i =>
    simp only [traceStep]
    by_cases hbd : 0 ≤ i ∧ i < (t.st.commands.length : Int)
    · rw [if_pos hbd]
      have hlen : i.toNat < t.st.commands.length := by
        obtain ⟨h1, h2⟩ := hbd; omega
      have hq := perm_take_one_eraseIdx t.st.commands i.toNat hlen
      constructor
      · unfold traceIds at hperm ⊢
        simp only [delete_command_in i t.st hbd]
        refine List.Perm.trans (List.Perm.map Cmd.id ?_) hperm
        rw [← Multiset.coe_eq_coe]
        simp only [← Multiset.coe_add]
        have hqm : (t.st.commands : Multiset Cmd) =
            ((t.st.commands.drop i.toNat).take 1 : List Cmd) +
              (t.st.commands.eraseIdx i.toNat : List Cmd) := by
          have h2 := Multiset.coe_eq_coe.mpr hq
          rwa [← Multiset.coe_add] at h2
        rw [hqm]
        abel
      · simp only [delete_command_in i t.st hbd]
        exact hassigned
    · rw [if_neg hbd]
      simp only [delete_command_out i t.st hbd]
      exact ⟨hperm, hassigned⟩
  | clearCmds =>
    simp only [traceStep, clear_commands]
    constructor
    · unfold traceIds at hperm ⊢
      refine List.Perm.trans (List.Perm.map Cmd.id ?_) hperm
      rw [← Multiset.coe_eq_coe]
      simp only [← Multiset.coe_add]
      abel
    · exact hassigned

theorem traceInv_run (ops : List Op) : traceInv (runTrace ops) := by
  have hgen : ∀ (l : List Op) (t : Trace), traceInv t → traceInv (l.foldl traceStep t) := by
    intro l
    induction l with
    | nil => exact fun t ht => ht
    | cons op l ih => exact fun t ht => ih _ (traceInv_step t op ht)
  refine hgen ops initTrace ⟨?_, rfl⟩
  simp [traceIds, initTrace, initState]

/-! ## Claim theorems -/

/-- C1: the claim says a body whose first JSON value is not an object is
accepted as Parsed with null headline fields and a 200 response.  In fact,
for the truthy non-object body `5` the handler's headline extraction calls
`.get` on an int and the AttributeError escapes the handler boundary before
any state is modified; the code contradicts the never-throw policy it is
built around, so this is a code bug, witnessed here by evaluation. -/
theorem C1_nonobject_body_crashes :
    mt4_webhook "5" "10.0.0.1" "2024-01-01 00:00:00" initState =
      .error "'int' object has no attribute 'get'" ∧
    stepState initState (Op.webhook "5" "10.0.0.1" "2024-01-01 00:00:00") = initState :=
  ⟨rfl, rfl⟩

/-- C2: the claim says the history snapshot is newest-first with
`min(N, C)` entries.  The length law holds, but after ingesting report 1 and
then report 2 the snapshot `list(reversed(history))` starts with report 1 —
the oldest retained record — because `appendleft` already keeps the deque
newest-first and the extra `reversed` flips it, contradicting the code's own
newest-first comment; a code bug, witnessed here by evaluation. -/
theorem C2_snapshot_head_is_oldest :
    (index_history_snapshot c2State).length = min 2 MAX_HISTORY ∧
    (index_history_snapshot c2State).head?.map Record.body_raw =
      some "\x7b\"seq\": 1\x7d" ∧
    (index_latest_record c2State).map Record.body_raw ≠ some "\x7b\"seq\": 2\x7d" := by
  refine ⟨rfl, rfl, ?_⟩
  intro hcontra
  have := Option.some.inj hcontra
  simp_all

/-- C3 (counterexample): the claim says no command with non-positive volume
is ever enqueued, but `send_command` never checks the sign: volume `-1`
passes validation and a command with volume `-1.0` lands in the outbox. -/
theorem C3_counterexample :
    ((send_command formNegVol "00:00:00" initState).1.commands.map
        (fun c => pyFloatStr c.volume)) = ["-1.0"] ∧
    (send_command formNegVol "00:00:00" initState).1.commands.length = 1 :=
  ⟨rfl, rfl⟩

/-- C3 (amended): `send_command` validates that the stripped symbol is
non-empty, the upper-cased direction is BUY or SELL, the volume is present
and parses as a number, and sl/tp parse as numbers when present — but not
that the volume is positive.  Every input failing one of these checks
enqueues nothing and leaves the state unchanged; every input passing them
appends exactly one command. -/
theorem C3_validation_gate (f : FormData) (now : String) (st : ServerState) :
    (¬ sendValid f → send_command f now st = (st, .redirect "/")) ∧
    (sendValid f → (send_command f now st).1.commands.length = st.commands.length + 1) := by
  constructor
  · exact fun h => send_command_rejected f now st h
  · intro hv
    obtain ⟨h1, h2, h3, h4⟩ := hv
    obtain ⟨v, hv'⟩ := Option.isSome_iff_exists.mp h2
    obtain ⟨slv, hs'⟩ := Option.isSome_iff_exists.mp h3
    obtain ⟨tpv, ht'⟩ := Option.isSome_iff_exists.mp h4
    unfold send_command
    rw [if_neg h1, hv', hs', ht']
    simp

/-- C3 witness: the HOLD direction is rejected with no new entry, and a
plain BUY of volume 1 appends exactly one command. -/
theorem C3_validation_gate_witness :
    send_command formHold "00:00:00" initState = (initState, .redirect "/") ∧
    (send_command formGood "00:00:00" initState).1.commands.length =
      initState.commands.length + 1 :=
  ⟨(C3_validation_gate formHold "00:00:00" initState).1 (by decide),
   (C3_validation_gate formGood "00:00:00" initState).2 (by decide)⟩

/-- C4: over every serialized interleaving of handler invocations, the ids
ever issued are partitioned exactly among the drain results, the deleteAt
removals, the clear removals and the live queue (each enqueued command is
accounted for exactly once), and no command id appears in two different
drain results. -/
theorem C4_atomic_drain_accounting (ops : List Op) :
    (traceIds (runTrace ops)).Perm (List.range (runTrace ops).st.cmd_counter) ∧
    ((runTrace ops).drains.map (List.map Cmd.id)).Pairwise List.Disjoint := by
  have hinv := traceInv_run ops
  refine ⟨hinv.1, ?_⟩
  have hnd : (traceIds (runTrace ops)).Nodup :=
    (hinv.1.nodup_iff).mpr (List.nodup_range _)
  unfold traceIds at hnd
  rw [List.map_append, List.map_append, List.map_append] at hnd
  have h1 : (((runTrace ops).drains.flatten).map Cmd.id).Nodup :=
    (List.nodup_append.mp ((List.nodup_append.mp ((List.nodup_append.mp hnd).1)).1)).1
  have h2 : ((((runTrace ops).drains.map (List.map Cmd.id)).flatten)).Nodup := by
    rw [← List.map_flatten]
    exact h1
  exact (List.nodup_flatten.mp h2).2

/-- C5: every body whose JSON decoding fails is recorded as a Failed parse
outcome with a non-empty reason inside the ingestion record, and the handler
still answers 200 text/plain with either NOCOMMAND or the pending command
lines — never a non-200 status. -/
theorem C5_parse_failure_recorded (body ip now : String) (st : ServerState)
    (e : JsonErr) (h : rawDecode (pyStrip body) = .error e) :
    ∃ st' rbody,
      mt4_webhook body ip now st = .ok (st', .text rbody 200 plainCT) ∧
      (rbody = "NOCOMMAND" ∨
        rbody = String.intercalate "\n" (st.commands.map format_command)) ∧
      st'.history.head? = some (failRecord body ip now e) ∧
      (failRecord body ip now e).parse_error = some e ∧
      errStr e ≠ "" ∧ (failRecord body ip now e).parsed = none := by
  have hsplit : splitDocument (pyStrip body) = (none, some e, none) := by
    unfold splitDocument; rw [h]
  have hmain : mt4_webhook body ip now st =
      .ok (webhookRespond (failRecord body ip now e) st) := by
    unfold mt4_webhook buildRecord
    rw [hsplit]
    rfl
  by_cases hc : st.commands.isEmpty
  · refine ⟨failState body ip now e st, "NOCOMMAND", ?_, Or.inl rfl, rfl, rfl,
      errStr_ne_empty e, rfl⟩
    rw [hmain]
    unfold webhookRespond failState
    rw [if_pos hc]
  · refine ⟨failState body ip now e st,
      String.intercalate "\n" (st.commands.map format_command), ?_,
      Or.inr rfl, rfl, rfl, errStr_ne_empty e, rfl⟩
    rw [hmain]
    unfold webhookRespond failState
    rw [if_neg hc]

/-- C5 witness: the body `not json` at process start yields a 200 NOCOMMAND
response and a record carrying the Failed outcome `Expecting value`. -/
theorem C5_witness :
    ∃ st' rbody,
      mt4_webhook "not json" "10.0.0.1" "t0" initState =
        .ok (st', .text rbody 200 plainCT) ∧
      (rbody = "NOCOMMAND" ∨
        rbody = String.intercalate "\n" (initState.commands.map format_command)) ∧
      st'.history.head? = some (failRecord "not json" "10.0.0.1" "t0" .expectingValue) ∧
      (failRecord "not json" "10.0.0.1" "t0" .expectingValue).parse_error =
        some .expectingValue ∧
      errStr .expectingValue ≠ "" ∧
      (failRecord "not json" "10.0.0.1" "t0" .expectingValue).parsed = none :=
  C5_parse_failure_recorded "not json" "10.0.0.1" "t0" initState .expectingValue rfl

/-- C6: the document splitter parses the first value of
`\x7b"a":1\x7d\x7b"b":2\x7d` and records the trimmed remainder
`\x7b"b":2\x7d` as trailing data without parsing it further, and both the
empty body and `not json` yield a Failed outcome with a non-empty reason. -/
theorem C6_split_correctness :
    splitDocument "\x7b\"a\":1\x7d\x7b\"b\":2\x7d" =
      (some (Json.obj [("a", Json.num false 1 0)]), none, some "\x7b\"b\":2\x7d") ∧
    (∃ e, splitDocument "" = (none, some e, none) ∧ errStr e ≠ "") ∧
    (∃ e, splitDocument "not json" = (none, some e, none) ∧ errStr e ≠ "") :=
  ⟨rfl, ⟨.expectingValue, rfl, by decide⟩, ⟨.expectingValue, rfl, by decide⟩⟩

/-- C7: each drained command renders as DIRECTION,SYMBOL,VOLUME with SL/TP
appended per the four presence cases (an absent side rendered as the literal
0), the symbol and direction are upper-cased at enqueue time — enqueuing
eurusd/buy/0.10/sl=1.1000 and draining yields exactly BUY,EURUSD,0.1,1.1,0
— and with no pending command the response body is exactly NOCOMMAND. -/
theorem C7_protocol_formatting :
    (∀ (i : Nat) (sym dir : String) (v : PyFloat) (ts : String),
      format_command ⟨i, sym, dir, v, none, none, ts⟩ =
        dir ++ "," ++ sym ++ "," ++ pyFloatStr v) ∧
    (∀ (i : Nat) (sym dir : String) (v slv : PyFloat) (ts : String),
      format_command ⟨i, sym, dir, v, some slv, none, ts⟩ =
        dir ++ "," ++ sym ++ "," ++ pyFloatStr v ++ "," ++ pyFloatStr slv ++ ",0") ∧
    (∀ (i : Nat) (sym dir : String) (v tpv : PyFloat) (ts : String),
      format_command ⟨i, sym, dir, v, none, some tpv, ts⟩ =
        dir ++ "," ++ sym ++ "," ++ pyFloatStr v ++ ",0," ++ pyFloatStr tpv) ∧
    (∀ (i : Nat) (sym dir : String) (v slv tpv : PyFloat) (ts : String),
      format_command ⟨i, sym, dir, v, some slv, some tpv, ts⟩ =
        dir ++ "," ++ sym ++ "," ++ pyFloatStr v ++ "," ++ pyFloatStr slv ++ "," ++
          pyFloatStr tpv) ∧
    webhookRespOf (mt4_webhook "\x7b\x7d" "10.0.0.1" "t1"
        (send_command formLower "00:00:01" initState).1) =
      some (.text "BUY,EURUSD,0.1,1.1,0" 200 plainCT) ∧
    webhookRespOf (mt4_webhook "\x7b\x7d" "10.0.0.1" "t1" initState) =
      some (.text "NOCOMMAND" 200 plainCT) :=
  ⟨fun _ _ _ _ _ => rfl, fun _ _ _ _ _ _ => rfl, fun _ _ _ _ _ _ => rfl,
   fun _ _ _ _ _ _ _ => rfl, rfl, rfl⟩

/-- C8: over every serialized trace of handler invocations, the ids assigned
by successful enqueues are strictly increasing in assignment order and no id
is ever assigned twice, regardless of interleaved deleteAt, clear and drain
operations. -/
theorem C8_ids_strictly_increasing (ops : List Op) :
    ((runTrace ops).assigned).Chain' (· < ·) ∧ ((runTrace ops).assigned).Nodup := by
  have h := (traceInv_run ops).2
  rw [h]
  exact ⟨(List.pairwise_lt_range _).chain', List.nodup_range _⟩

/-- C9 (counterexample): the claim says an out-of-bounds deleteAt reports a
negative/false result.  The handler answers the identical redirect for the
out-of-bounds position 5 (queue untouched) and for the successful position 0
(queue shrunk), so no failure indication of any kind is surfaced to the
caller. -/
theorem C9_counterexample :
    (delete_command 5 stOne).1.commands.length = 1 ∧
    (delete_command 0 stOne).1.commands.length = 0 ∧
    (delete_command 5 stOne).2 = (delete_command 0 stOne).2 :=
  ⟨rfl, rfl, rfl⟩

/-- C9 (amended): for every position outside `[0, currentLength)`,
delete_command is a no-op that leaves the queue unchanged and never throws;
the caller receives the same redirect as on success, with no failure
indication. -/
theorem C9_delete_out_of_bounds (i : Int) (st : ServerState)
    (h : ¬(0 ≤ i ∧ i < (st.commands.length : Int))) :
    delete_command i st = (st, .redirect "/") :=
  delete_command_out i st h

/-- C9 witness: deleting position 5 of a one-command queue changes nothing
and redirects. -/
theorem C9_witness : delete_command 5 stOne = (stOne, .redirect "/") :=
  C9_delete_out_of_bounds 5 stOne (by decide)

/-- C10: an admin enqueue rejected by validation leaves the whole state
untouched (outbox and id counter included), and consequently along every
serialized trace the ids actually assigned are exactly the consecutive
sequence 0, 1, ..., cmd_counter - 1. -/
theorem C10_rejected_enqueue_consumes_nothing :
    (∀ (f : FormData) (now : String) (st : ServerState),
      ¬ sendValid f → send_command f now st = (st, .redirect "/")) ∧
    (∀ ops : List Op,
      (runTrace ops).assigned = List.range (runTrace ops).st.cmd_counter) :=
  ⟨fun f now st h => send_command_rejected f now st h,
   fun ops => (traceInv_run ops).2⟩

/-- C10 witness: the empty-symbol enqueue leaves the initial state unchanged,
and the one-enqueue trace has assigned exactly [0]. -/
theorem C10_witness :
    send_command formEmptySym "00:00:00" initState = (initState, .redirect "/") ∧
    (runTrace [Op.admin formGood "00:00:00"]).assigned =
      List.range (runTrace [Op.admin formGood "00:00:00"]).st.cmd_counter :=
  ⟨C10_rejected_enqueue_consumes_nothing.1 formEmptySym "00:00:00" initState (by decide),
   C10_rejected_enqueue_consumes_nothing.2 [Op.admin formGood "00:00:00"]⟩

end App
